import Mathlib

/-!
Verification development for the blob CSI driver node-service core
(`pkg/blob`): volume-identity parsing (`GetContainerInfo`), container-name
normalisation (`getValidContainerName`), credential resolution
(`GetAuthEnv`), mount-option assembly (`appendDefaultMountOptions`) and the
staging controller (`NodeStageVolume` / `ensureMountPoint`).

Strings handled character-wise are embedded as `List Char` (the source
operates on ASCII bytes there); external effects (mounter, secret store,
key vault, cloud, clock, map-iteration order) are oracles collected in an
`Env` record, and the calls a run performs are logged as events so that
properties such as "the executor is not invoked" are statable.
-/

namespace Blob

/-- Split a character list on a separator, mirroring Go `strings.Split`
with a one-character separator: `splitSep '#' "a#b"` is `["a","b"]` and
the empty input yields one empty segment. -/
def splitSep (sep : Char) : List Char → List (List Char)
  | [] => [[]]
  | c :: cs =>
    if c = sep then [] :: splitSep sep cs
    else
      match splitSep sep cs with
      | [] => [[c]]
      | s :: ss => (c :: s) :: ss

/-- First three segments of a split, `none` when fewer than three exist
(the source's `len(segments) < 3` error case). -/
def firstThree (l : List String) : Option (String × String × String) :=
  match l with
  | a :: b :: c :: _ => some (a, b, c)
  | _ => none

/-- GetContainerInfo splits the volume id on `"#"` and returns the first
three segments; fewer than three segments is a parse error (`none`),
as in the source (`len(segments) < 3`). -/
def GetContainerInfo (id : String) : Option (String × String × String) :=
  firstThree ((splitSep '#' id.data).map String.mk)

/-- Rejoin three segments with the `"#"` separator (the inverse direction
of `GetContainerInfo` used by the round-trip property). -/
def joinSegs (a b c : List Char) : List Char :=
  a ++ '#' :: (b ++ '#' :: c)

/-! ### Container naming (`getValidContainerName` and helpers) -/

/-- Lower-case an ASCII letter, as Go `strings.ToLower` does on the ASCII
range (the driver only ever feeds ASCII container/attribute names). -/
def goLowerChar (c : Char) : Char :=
  if 'A' ≤ c ∧ c ≤ 'Z' then Char.ofNat (c.toNat + 32) else c

/-- Lower-case a whole string character-wise (Go `strings.ToLower`). -/
def goLower (s : String) : String := String.mk (s.data.map goLowerChar)

/-- Letter-or-digit test used by the container-name begin/end rule
(lower-case letters suffice because the name was lower-cased first). -/
def isAlphaNumLower (c : Char) : Bool :=
  ('a' ≤ c && c ≤ 'z') || ('0' ≤ c && c ≤ '9')

/-- checkContainerNameBeginAndEnd reads `containerName[0]` and
`containerName[length-1]` unconditionally; on the empty string those reads
are out of range, which in Go is a runtime panic — embedded as `none`. -/
def checkContainerNameBeginAndEnd (containerName : List Char) : Option Bool :=
  match containerName.head?, containerName.getLast? with
  | some a, some b => some (isAlphaNumLower a && isAlphaNumLower b)
  | _, _ => none

/-- Replace occurrences of `"--"` by `"-"` in one left-to-right
non-overlapping pass, as Go `strings.Replace(s, "--", "-", -1)` does:
after a match, scanning resumes after the matched pair, so a run of three
dashes leaves two consecutive dashes in the output. -/
def replaceDashDash : List Char → List Char
  | '-' :: '-' :: rest => '-' :: replaceDashDash rest
  | c :: rest => c :: replaceDashDash rest
  | [] => []

/-- GenerateVolumeName models the external `k8s.io/kubernetes` volume-util
helper the driver calls (the vendored copy is not part of this repository's
core): it joins `clusterName ++ "-dynamic"` and the generated uuid with a
dash, truncating the left part to respect `maxLength`. -/
def GenerateVolumeName (clusterName pvName : List Char) (maxLength : Nat) : List Char :=
  let pre := clusterName ++ "-dynamic".data
  let pre := if pvName.length + pre.length + 1 > maxLength
             then pre.take (maxLength - pvName.length - 1) else pre
  pre ++ '-' :: pvName

/-- getValidContainerName lower-cases and truncates the requested name to
63 characters, then evaluates `checkContainerNameBeginAndEnd` BEFORE the
minimum-length test (Go `||` evaluates left to right), replacing a name
that fails either test with a generated `pvc-<protocol>`-prefixed name
(`uuid` stands for the random uuid drawn at that point), and finally runs
the single-pass `"--"` replacement.  The result is `none` exactly when the
begin/end check panics (empty name after lower-casing/truncation). -/
def getValidContainerName (volumeName protocol uuid : List Char) : Option (List Char) :=
  let containerName := volumeName.map goLowerChar
  let containerName := if containerName.length > 63 then containerName.take 63 else containerName
  match checkContainerNameBeginAndEnd containerName with
  | none => none
  | some ok =>
    let containerName :=
      if ¬ ok || containerName.length < 3
      then GenerateVolumeName ("pvc-".data ++ protocol) uuid 63
      else containerName
    some (replaceDashDash containerName)

/-- Sample uuid used to instantiate the random-uuid oracle in concrete
evaluations (its value is irrelevant on the paths exercised). -/
def uuidSample : List Char := "17e43f84-f474-11e8-acd0-000d3a00df41".data

/-! ### Credential resolution (`GetAuthEnv` and helpers)

Auth environment entries `"KEY=value"` are embedded as `(key, value)`
pairs; Go errors are `Option String` / `Except String`; the external
capabilities (key vault, secret store, cloud key lookup, mounter,
clock, map-iteration order) are oracle fields of `Env`, and every
capability invocation is logged as an event. -/

/-- Go error value distinguishing the `os.IsNotExist` class, which
`ensureMountPoint` treats specially. -/
inductive GoErr
  | notExist
  | other (msg : String)
deriving DecidableEq, Repr

/-- True for errors recognised by `os.IsNotExist`. -/
def GoErr.isNotExist : GoErr → Bool
  | .notExist => true
  | .other _ => false

/-- Events logging which external capabilities a run invoked. -/
inductive Ev
  | makeDir
  | removeTarget
  | unmountTarget
  | kvFetch
  | secretGet
  | cloudGetKey
  | execMount
  | nfsMount
deriving DecidableEq, Repr

/-- Oracle bundle for one request: results of each external call the code
may perform, in program order.  `defaultsOrder` stands for the (randomised)
Go map-iteration order of the engine-default mount options. -/
structure Env where
  lockHeld : Bool
  stat1 : Bool × Option GoErr
  corrupted : Bool
  readDirErr : Option GoErr
  unmountErr : Option GoErr
  makeDirErr : Option GoErr
  kvSecret : Except String String
  storeSecret : Except String (String × String)
  cloudKey : Except String String
  nfsMountErr : Option String
  chmodErr : Option String
  mockMakeDirErr : Option String
  execMountRes : String × Option String
  post1 : Bool × Option GoErr
  unmount2Err : Option GoErr
  post2 : Bool × Option GoErr
  defaultsOrder : List (String × String)
  nowUnix : Nat
deriving Repr

/-- Driver configuration fields read by the staging path. -/
structure DriverCfg where
  resourceGroup : String
  storageEndpointSuffix : String
  enableBlobMockMount : Bool
  enableBlobfuseProxy : Bool
deriving Repr

/-- Substring containment on character lists (Go `strings.Contains`). -/
def containsSeq (pat : List Char) : List Char → Bool
  | [] => pat.isEmpty
  | c :: rest => pat.isPrefixOf (c :: rest) || containsSeq pat rest

/-- isSASToken reports whether the fetched key contains the `"?sv="`
query-string marker (Go `strings.Contains`). -/
def isSASToken (key : String) : Bool := containsSeq "?sv=".data key.data

/-- State threaded through the `attrib` loop of `GetAuthEnv`. -/
structure AttrSt where
  containerName : String
  accountName : String
  secretName : String
  secretNamespace : String
  keyVaultURL : String
  kvSecretName : String
  kvSecretVersion : String
  authType : String
  getAccountKeyFromSecret : Bool
  authEnv : List (String × String)
deriving DecidableEq, Repr

/-- Initial loop state: account and container pre-filled from the parsed
volume id (empty on parse failure, which the code ignores). -/
def initAttrSt (accountName containerName : String) : AttrSt :=
  { containerName := containerName, accountName := accountName,
    secretName := "", secretNamespace := "", keyVaultURL := "",
    kvSecretName := "", kvSecretVersion := "", authType := "",
    getAccountKeyFromSecret := false, authEnv := [] }

/-- One iteration of the `attrib` switch in `GetAuthEnv`: recognised keys
(matched after `strings.ToLower`) update the state; identity-related keys
additionally append their env entry; unrecognised keys are ignored. -/
def procAttr (st : AttrSt) (kv : String × String) : AttrSt :=
  if goLower kv.1 = "containername" then { st with containerName := kv.2 }
  else if goLower kv.1 = "keyvaulturl" then { st with keyVaultURL := kv.2 }
  else if goLower kv.1 = "keyvaultsecretname" then { st with kvSecretName := kv.2 }
  else if goLower kv.1 = "keyvaultsecretversion" then { st with kvSecretVersion := kv.2 }
  else if goLower kv.1 = "storageaccount" then { st with accountName := kv.2 }
  else if goLower kv.1 = "storageaccountname" then { st with accountName := kv.2 }
  else if goLower kv.1 = "secretname" then { st with secretName := kv.2 }
  else if goLower kv.1 = "secretnamespace" then { st with secretNamespace := kv.2 }
  else if goLower kv.1 = "getaccountkeyfromsecret" then
    { st with getAccountKeyFromSecret := goLower kv.2 = "true" }
  else if goLower kv.1 = "azurestorageauthtype" then
    { st with authType := kv.2, authEnv := st.authEnv ++ [("AZURE_STORAGE_AUTH_TYPE", kv.2)] }
  else if goLower kv.1 = "azurestorageidentityclientid" then
    { st with authEnv := st.authEnv ++ [("AZURE_STORAGE_IDENTITY_CLIENT_ID", kv.2)] }
  else if goLower kv.1 = "azurestorageidentityobjectid" then
    { st with authEnv := st.authEnv ++ [("AZURE_STORAGE_IDENTITY_OBJECT_ID", kv.2)] }
  else if goLower kv.1 = "azurestorageidentityresourceid" then
    { st with authEnv := st.authEnv ++ [("AZURE_STORAGE_IDENTITY_RESOURCE_ID", kv.2)] }
  else if goLower kv.1 = "msiendpoint" then
    { st with authEnv := st.authEnv ++ [("MSI_ENDPOINT", kv.2)] }
  else if goLower kv.1 = "azurestoragespnclientid" then
    { st with authEnv := st.authEnv ++ [("AZURE_STORAGE_SPN_CLIENT_ID", kv.2)] }
  else if goLower kv.1 = "azurestoragespntenantid" then
    { st with authEnv := st.authEnv ++ [("AZURE_STORAGE_SPN_TENANT_ID", kv.2)] }
  else if goLower kv.1 = "azurestorageaadendpoint" then
    { st with authEnv := st.authEnv ++ [("AZURE_STORAGE_AAD_ENDPOINT", kv.2)] }
  else st

/-- Parsed volume-id triple with the parse error dropped, matching the
code's "ignore volumeID parsing error" behaviour. -/
def parsedInfo (volumeID : String) : String × String × String :=
  match GetContainerInfo volumeID with
  | some t => t
  | none => ("", "", "")

/-- Attribute-loop state reached by `GetAuthEnv` for a given volume id and
attribute sequence (the list order is the map-iteration order). -/
def attrState (volumeID : String) (attrib : List (String × String)) : AttrSt :=
  attrib.foldl procAttr (initAttrSt (parsedInfo volumeID).2.1 (parsedInfo volumeID).2.2)

/-- Key material produced by the resolution tiers, before the final
container-name check and env appends. -/
structure KeyOut where
  accountName : String
  accountKey : String
  sas : String
  authEnv : List (String × String)
  err : Option String
deriving DecidableEq, Repr

/-- One iteration of the inline-secrets switch in `GetAuthEnv`. -/
def procSecret (st : KeyOut) (kv : String × String) : KeyOut :=
  if goLower kv.1 = "accountname" then { st with accountName := kv.2 }
  else if goLower kv.1 = "azurestorageaccountname" then { st with accountName := kv.2 }
  else if goLower kv.1 = "accountkey" then { st with accountKey := kv.2 }
  else if goLower kv.1 = "azurestorageaccountkey" then { st with accountKey := kv.2 }
  else if goLower kv.1 = "azurestorageaccountsastoken" then { st with sas := kv.2 }
  else if goLower kv.1 = "msisecret" then { st with authEnv := st.authEnv ++ [("MSI_SECRET", kv.2)] }
  else if goLower kv.1 = "azurestoragespnclientsecret" then
    { st with authEnv := st.authEnv ++ [("AZURE_STORAGE_SPN_CLIENT_SECRET", kv.2)] }
  else st

/-- Key-material resolution of `GetAuthEnv` (non-nfs path): key vault if a
key-vault URL was set, else inline secrets if non-empty, else named-secret
lookup with cloud fallback.  `Sum.inr` is an early `return` with an error;
`Sum.inl` falls through to the common tail. -/
def resolveKeyMaterial (env : Env) (st : AttrSt) (rgName : String)
    (secrets : List (String × String)) : (KeyOut ⊕ String) × List Ev :=
  if st.keyVaultURL ≠ "" then
    match env.kvSecret with
    | .error e => (.inr e, [Ev.kvFetch])
    | .ok key =>
      if isSASToken key then
        (.inl { accountName := st.accountName, accountKey := "", sas := key,
                authEnv := st.authEnv, err := none }, [Ev.kvFetch])
      else
        (.inl { accountName := st.accountName, accountKey := key, sas := "",
                authEnv := st.authEnv, err := none }, [Ev.kvFetch])
  else
    if secrets.isEmpty then
      let secretName :=
        if st.secretName = "" ∧ st.accountName ≠ ""
        then "azure-storage-account-" ++ st.accountName ++ "-secret"
        else st.secretName
      if secretName ≠ "" ∧ ¬ (goLower st.authType = "msi") then
        match env.storeSecret with
        | .ok (name, key) =>
          (.inl { accountName := if name ≠ "" then name else st.accountName,
                  accountKey := key, sas := "", authEnv := st.authEnv,
                  err := none }, [Ev.secretGet])
        | .error e =>
          if ¬ st.getAccountKeyFromSecret then
            match env.cloudKey with
            | .ok key =>
              (.inl { accountName := st.accountName, accountKey := key, sas := "",
                      authEnv := st.authEnv, err := none },
               [Ev.secretGet, Ev.cloudGetKey])
            | .error e2 =>
              (.inr ("no key for storage account(" ++ st.accountName ++
                     ") under resource group(" ++ rgName ++ "), err " ++ e2),
               [Ev.secretGet, Ev.cloudGetKey])
          else
            (.inl { accountName := st.accountName, accountKey := "", sas := "",
                    authEnv := st.authEnv, err := some e }, [Ev.secretGet])
      else
        (.inl { accountName := st.accountName, accountKey := "", sas := "",
                authEnv := st.authEnv, err := none }, [])
    else
      let s := secrets.foldl procSecret
        { accountName := st.accountName, accountKey := "", sas := "",
          authEnv := st.authEnv, err := none }
      (.inl s, [])

/-- Result quadruple of `GetAuthEnv`. -/
structure AuthResult where
  accountName : String
  containerName : String
  authEnv : List (String × String)
  err : Option String
deriving DecidableEq, Repr

/-- Common tail of the non-nfs path of `GetAuthEnv`: an early return keeps
the loop state untouched; a fall-through applies the missing-container
check and appends the SAS-token and account-key entries, in that order. -/
def finishAuth (volumeID : String) (st : AttrSt)
    (r : (KeyOut ⊕ String) × List Ev) : AuthResult × List Ev :=
  match r with
  | (.inr e, evs) =>
    ({ accountName := st.accountName, containerName := st.containerName,
       authEnv := st.authEnv, err := some e }, evs)
  | (.inl ko, evs) =>
    let cerr :=
      if st.containerName = ""
      then some ("could not find containerName from attributes or volumeID(" ++
                 volumeID ++ ")")
      else ko.err
    let e1 := ko.authEnv ++
      (if ko.sas ≠ "" then [("AZURE_STORAGE_SAS_TOKEN", ko.sas)] else [])
    let e2 := e1 ++
      (if ko.accountKey ≠ "" then [("AZURE_STORAGE_ACCESS_KEY", ko.accountKey)] else [])
    ({ accountName := ko.accountName, containerName := st.containerName,
       authEnv := e2, err := cerr }, evs)

/-- GetAuthEnv: parse the volume id (errors ignored), run the attribute
loop, return directly for the `nfs` protocol (no key material and no
missing-container check), otherwise resolve key material and finish. -/
def GetAuthEnv (d : DriverCfg) (env : Env) (volumeID protocol : String)
    (attrib secrets : List (String × String)) : AuthResult × List Ev :=
  let st := attrState volumeID attrib
  if protocol = "nfs" then
    ({ accountName := st.accountName, containerName := st.containerName,
       authEnv := st.authEnv, err := none }, [])
  else
    let rgName := if (parsedInfo volumeID).1 = "" then d.resourceGroup
                  else (parsedInfo volumeID).1
    finishAuth volumeID st (resolveKeyMaterial env st rgName secrets)

/-! ### Mount-option assembly (`appendDefaultMountOptions`) -/

/-- Engine-default mount options, written in source order; at runtime this
is a Go map, so its iteration order is randomised. -/
def defaultMountOptions (tmpPath containerName : String) : List (String × String) :=
  [("--pre-mount-validate", "true"),
   ("--use-https", "true"),
   ("--tmp-path", tmpPath),
   ("--container-name", containerName),
   ("--cancel-list-on-mount-seconds", "60")]

/-- appendDefaultMountOptions keeps the caller flags in order and appends
each default whose key no caller flag starts with, formatted as
`key=value` (or the bare key when the value is empty).  `order` is the
map-iteration order the Go runtime happened to use, a permutation of
`defaultMountOptions`. -/
def appendDefaultMountOptions (order : List (String × String))
    (mountOptions : List String) : List String :=
  mountOptions ++
    ((order.filter (fun kv => ! mountOptions.any (fun opt => kv.1.isPrefixOf opt))).map
      (fun kv => if kv.2 ≠ "" then kv.1 ++ "=" ++ kv.2 else kv.1))

/-! ### Staging controller (`ensureMountPoint`, `NodeStageVolume`) -/

/-- Second half of `ensureMountPoint`, entered with the (possibly
corruption-adjusted) `notMnt` flag: a reported mount point is liveness
checked by `ReadDir` and, when that fails, unmounted — note that on a
successful unmount the function still returns the `ReadDir` error; a
non-mount-point gets its directory created. -/
def ensureAfterStat (env : Env) (notMnt : Bool) : (Bool × Option GoErr) × List Ev :=
  if ¬ notMnt then
    match env.readDirErr with
    | none => ((true, none), [])
    | some rde =>
      match env.unmountErr with
      | some ue => ((true, some ue), [Ev.unmountTarget])
      | none => ((false, some rde), [Ev.unmountTarget])
  else
    ((false, env.makeDirErr), [Ev.makeDir])

/-- ensureMountPoint: mount-point probe with corrupted-mount tolerance
(`IsCorruptedDir` turns a failed probe into "treat as mount point"),
then the liveness/creation logic of `ensureAfterStat`.  Returns
`(isMountPoint, error)` as `(!notMnt, err)` does in the source. -/
def ensureMountPoint (env : Env) : (Bool × Option GoErr) × List Ev :=
  let (notMnt0, err0) := env.stat1
  match err0 with
  | some e =>
    if ¬ e.isNotExist then
      if env.corrupted then ensureAfterStat env false
      else ((!notMnt0, some e), [])
    else ensureAfterStat env notMnt0
  | none => ensureAfterStat env notMnt0

/-- State threaded through the attribute loop at the top of
`NodeStageVolume`. -/
structure StageAttrs where
  serverAddress : String
  storageEndpointSuffix : String
  protocol : String
  ephemeralVolMountOptions : String
  ephemeralVol : Bool
  isHnsEnabled : Bool
deriving DecidableEq, Repr

/-- One iteration of the `attrib` switch in `NodeStageVolume`. -/
def procStageAttr (st : StageAttrs) (kv : String × String) : StageAttrs :=
  if goLower kv.1 = "server" then { st with serverAddress := kv.2 }
  else if goLower kv.1 = "protocol" then { st with protocol := kv.2 }
  else if goLower kv.1 = "storageendpointsuffix" then { st with storageEndpointSuffix := kv.2 }
  else if goLower kv.1 = "csi.storage.k8s.io/ephemeral" then { st with ephemeralVol := goLower kv.2 = "true" }
  else if goLower kv.1 = "mountoptions" then { st with ephemeralVolMountOptions := kv.2 }
  else if goLower kv.1 = "ishnsenabled" then { st with isHnsEnabled := goLower kv.2 = "true" }
  else st

/-- Stage-attribute state for an attribute sequence. -/
def stageAttrState (attrib : List (String × String)) : StageAttrs :=
  attrib.foldl procStageAttr
    { serverAddress := "", storageEndpointSuffix := "", protocol := "",
      ephemeralVolMountOptions := "", ephemeralVol := false, isHnsEnabled := false }

/-- Merge of caller options with extra options, standing for the repo's
`util.JoinMountOptions` helper (outside the staged sources; its exact
dedup behaviour affects no claim, only the option payload). -/
def joinMountOptions (a b : List String) : List String := a ++ b

/-- A staging request: the fields `NodeStageVolume` validates and reads. -/
structure StageReq where
  volumeID : String
  targetPath : String
  hasCapability : Bool
  mountFlags : List String
  attrib : List (String × String)
  secrets : List (String × String)
deriving Repr

/-- Mount args and env assembled for the blobfuse executor (target path
followed by the options, account and endpoint entries appended). -/
def NodeStageVolume (d : DriverCfg) (env : Env) (req : StageReq) :
    Option String × List Ev :=
  if req.volumeID = "" then (some "InvalidArgument: Volume ID missing in request", [])
  else if req.targetPath = "" then (some "InvalidArgument: Staging target not provided", [])
  else if ¬ req.hasCapability then (some "InvalidArgument: Volume capability not provided", [])
  else if env.lockHeld then
    (some ("Aborted: An operation with the given Volume ID " ++ req.volumeID ++ " already exists"), [])
  else
    let ((mnt, err1), evs1) := ensureMountPoint env
    match err1 with
    | some _ => (some ("Internal: Could not mount target " ++ req.targetPath), evs1)
    | none =>
      if mnt then (none, evs1)
      else
        let sa := stageAttrState req.attrib
        let (ar, evs2) := GetAuthEnv d env req.volumeID sa.protocol req.attrib req.secrets
        match ar.err with
        | some e => (some e, evs1 ++ evs2)
        | none =>
          let suffix := if sa.storageEndpointSuffix.trim = ""
                        then (if d.storageEndpointSuffix ≠ "" then d.storageEndpointSuffix
                              else "core.windows.net")
                        else sa.storageEndpointSuffix
          let serverAddress := if sa.serverAddress.trim = ""
                               then ar.accountName ++ ".blob." ++ suffix
                               else sa.serverAddress
          if sa.protocol = "nfs" then
            match env.nfsMountErr with
            | some e =>
              (some ("Internal: volume(" ++ req.volumeID ++ ") mount on " ++
                     req.targetPath ++ " failed with " ++ e),
               evs1 ++ evs2 ++ [Ev.nfsMount])
            | none =>
              match env.chmodErr with
              | some e => (some ("Internal: Chmod(" ++ req.targetPath ++ ") failed with " ++ e),
                           evs1 ++ evs2 ++ [Ev.nfsMount])
              | none => (none, evs1 ++ evs2 ++ [Ev.nfsMount])
          else
            let mo1 := req.mountFlags
            let mo2 := if sa.ephemeralVol
                       then joinMountOptions mo1 (sa.ephemeralVolMountOptions.splitOn ",")
                       else mo1
            let mo3 := if sa.isHnsEnabled then joinMountOptions mo2 ["--use-adls=true"] else mo2
            let _mountOptions := appendDefaultMountOptions env.defaultsOrder mo3
            let _authEnv2 := ar.authEnv ++
              [("AZURE_STORAGE_ACCOUNT", ar.accountName),
               ("AZURE_STORAGE_BLOB_ENDPOINT", serverAddress)]
            if d.enableBlobMockMount then
              match env.mockMakeDirErr with
              | some e => (some e, evs1 ++ evs2 ++ [Ev.makeDir])
              | none => (none, evs1 ++ evs2 ++ [Ev.makeDir])
            else
              match env.execMountRes with
              | (_, none) => (none, evs1 ++ evs2 ++ [Ev.execMount])
              | (output, some e) =>
                let msg := "Mount failed with error: " ++ e ++ ", output: " ++ output
                let baseEvs := evs1 ++ evs2 ++ [Ev.execMount]
                let (notMnt2, p1err) := env.post1
                match p1err with
                | some _ => (some msg, baseEvs)
                | none =>
                  if ¬ notMnt2 then
                    match env.unmount2Err with
                    | some _ => (some msg, baseEvs ++ [Ev.unmountTarget])
                    | none =>
                      let (notMnt3, p2err) := env.post2
                      match p2err with
                      | some _ => (some msg, baseEvs ++ [Ev.unmountTarget])
                      | none =>
                        if ¬ notMnt3 then (some msg, baseEvs ++ [Ev.unmountTarget])
                        else (some msg, baseEvs ++ [Ev.unmountTarget, Ev.removeTarget])
                  else (some msg, baseEvs ++ [Ev.removeTarget])

/-! ### Concrete fixtures used by counterexamples and witnesses -/

/-- Tags appended by the identity-related attribute cases of `GetAuthEnv`;
these are additive and never carry key material. -/
def identityTags : List String :=
  ["AZURE_STORAGE_AUTH_TYPE", "AZURE_STORAGE_IDENTITY_CLIENT_ID",
   "AZURE_STORAGE_IDENTITY_OBJECT_ID", "AZURE_STORAGE_IDENTITY_RESOURCE_ID",
   "MSI_ENDPOINT", "AZURE_STORAGE_SPN_CLIENT_ID", "AZURE_STORAGE_SPN_TENANT_ID",
   "AZURE_STORAGE_AAD_ENDPOINT"]

/-- Membership of a key among an auth environment's entry keys. -/
def hasTag (t : String) (l : List (String × String)) : Bool :=
  l.any (fun p => p.1 == t)

/-- Driver configuration used in concrete runs. -/
def d0 : DriverCfg :=
  { resourceGroup := "rg-default", storageEndpointSuffix := "",
    enableBlobMockMount := false, enableBlobfuseProxy := false }

/-- Oracle bundle for concrete runs: the target path does not exist yet,
no corruption, directory creation succeeds, the secret store and the cloud
key lookup fail, the executor succeeds. -/
def envBase : Env :=
  { lockHeld := false, stat1 := (true, some .notExist), corrupted := false,
    readDirErr := none, unmountErr := none, makeDirErr := none,
    kvSecret := .error "kv unavailable", storeSecret := .error "secret not found",
    cloudKey := .error "cloud down", nfsMountErr := none, chmodErr := none,
    mockMakeDirErr := none, execMountRes := ("", none), post1 := (true, none),
    unmount2Err := none, post2 := (true, none),
    defaultsOrder := defaultMountOptions "/mnt/t" "cont", nowUnix := 0 }

/-- Well-formed staging request used in concrete runs. -/
def reqBase : StageReq :=
  { volumeID := "rg1#acct1#cont1#abc123", targetPath := "/staging/t",
    hasCapability := true, mountFlags := [], attrib := [], secrets := [] }

/-- Oracle bundle where the target is a mount point whose liveness check
(`ReadDir`) fails — the broken-link scenario — with the unmount
succeeding. -/
def envBrokenLink : Env :=
  { envBase with stat1 := (false, none), readDirErr := some (.other "input-output error") }

/-- Oracle bundle where the target is already a healthy mount point. -/
def envMounted : Env := { envBase with stat1 := (false, none) }

/-- Oracle bundle where credentials resolve from the key vault but the
blobfuse executor fails, the post-failure probe finding no mount. -/
def envExecFail : Env :=
  { envBase with kvSecret := .ok "KEYMAT", execMountRes := ("out", some "exit 1") }

/-- Staging request whose attributes point at a key vault. -/
def reqKV : StageReq := { reqBase with attrib := [("keyvaulturl", "https://kv")] }

/-! ### Theorems for the claims -/

lemma splitSep_no_sep (sep : Char) (a : List Char) (h : sep ∉ a) :
    splitSep sep a = [a] := by
  induction a with
  | nil => rfl
  | cons c cs ih =>
    have hc : c ≠ sep := fun hcs => h (hcs ▸ List.mem_cons_self c cs)
    have hcs : sep ∉ cs := fun hm => h (List.mem_cons_of_mem _ hm)
    simp [splitSep, hc, ih hcs]
lemma splitSep_append_sep (sep : Char) (a r : List Char) (h : sep ∉ a) :
    splitSep sep (a ++ sep :: r) = a :: splitSep sep r := by
  induction a with
  | nil => simp [splitSep]
  | cons c cs ih =>
    have hc : c ≠ sep := fun hcs => h (hcs ▸ List.mem_cons_self c cs)
    have hcs : sep ∉ cs := fun hm => h (List.mem_cons_of_mem _ hm)
    simp [splitSep, hc, ih hcs]
lemma firstThree_none_iff (l : List String) :
    firstThree l = none ↔ l.length < 3 := by
  rcases l with _ | ⟨a, _ | ⟨b, _ | ⟨c, t⟩⟩⟩ <;> simp [firstThree]

/-- C7: `GetContainerInfo` splits the volume id on `#` and fails exactly
when fewer than three segments result; with at least three segments the
first three are returned unchanged; a four-segment identity whose fields
are `#`-free parses to its first three segments, so re-joining the
returned triple (`joinSegs`) reproduces the identity's first three
segments verbatim. -/
theorem getContainerInfo_spec :
    (∀ id : String, GetContainerInfo id = none ↔ (splitSep '#' id.data).length < 3) ∧
    (∀ (id : String) (s0 s1 s2 : String) (rest : List String),
      (splitSep '#' id.data).map String.mk = s0 :: s1 :: s2 :: rest →
      GetContainerInfo id = some (s0, s1, s2)) ∧
    (∀ a b c dsc : List Char, '#' ∉ a → '#' ∉ b → '#' ∉ c → '#' ∉ dsc →
      GetContainerInfo (String.mk (joinSegs a b c ++ '#' :: dsc)) =
        some (String.mk a, String.mk b, String.mk c)) := by
  refine ⟨fun id => ?_, fun id s0 s1 s2 rest h => ?_, fun a b c dsc ha hb hc hd => ?_⟩
  · rw [GetContainerInfo, firstThree_none_iff, List.length_map]
  · rw [GetContainerInfo, h]; rfl
  · have hsplit : splitSep '#' (joinSegs a b c ++ '#' :: dsc) = [a, b, c, dsc] := by
      simp only [joinSegs, List.append_assoc, List.cons_append]
      rw [splitSep_append_sep _ _ _ ha, splitSep_append_sep _ _ _ hb,
          splitSep_append_sep _ _ _ hc, splitSep_no_sep _ _ hd]
    show firstThree ((splitSep '#' (joinSegs a b c ++ '#' :: dsc)).map String.mk) = _
    rw [hsplit]; rfl

/-- C7 witness: the documented example identity parses to its first three
segments, which rejoin to the identity's prefix. -/
theorem getContainerInfo_spec_witness :
    ('#' ∉ "rg".data ∧ '#' ∉ "acct".data ∧ '#' ∉ "cont".data ∧ '#' ∉ "uuid1".data) ∧
    GetContainerInfo (String.mk (joinSegs "rg".data "acct".data "cont".data ++ '#' :: "uuid1".data)) =
      some ("rg", "acct", "cont") :=
  ⟨⟨by decide, by decide, by decide, by decide⟩,
   getContainerInfo_spec.2.2 "rg".data "acct".data "cont".data "uuid1".data
     (by decide) (by decide) (by decide) (by decide)⟩

/-- C4: a valid-looking name with a run of three dashes survives the
begin/end and length checks, and the single-pass `"--"` replacement turns
the run into `"--"`, so the returned container name still contains two
consecutive dashes, contrary to the naming rule in the function's own
documentation. -/
theorem getValidContainerName_consecutive_dashes :
    getValidContainerName "aa---aa".data "fuse".data uuidSample = some "aa--aa".data ∧
    containsSeq "--".data "aa--aa".data = true := by decide

/-- C10: on the empty requested name the begin/end check runs before the
minimum-length check and indexes `containerName[0]`, which is out of
range: the embedded check (and hence `getValidContainerName`) returns
`none`, the image of the Go runtime panic. -/
theorem getValidContainerName_empty_panics :
    getValidContainerName [] "fuse".data uuidSample = none ∧
    checkContainerNameBeginAndEnd [] = none := by decide

/-- C3 counterexample: two admissible iteration orders of the engine
default map (the source order and its reverse, both permutations of the
same map) yield different output sequences for identical caller inputs,
so `Build` is not deterministic at the sequence level. -/
theorem appendDefaultMountOptions_order_dependent :
    (defaultMountOptions "/tmp/a" "cont").Perm ((defaultMountOptions "/tmp/a" "cont").reverse) ∧
    appendDefaultMountOptions (defaultMountOptions "/tmp/a" "cont") [] ≠
      appendDefaultMountOptions ((defaultMountOptions "/tmp/a" "cont").reverse) [] :=
  ⟨(List.reverse_perm _).symm, by decide⟩

/-- C3 amended: for any two map-iteration orders the outputs are
permutations of each other (the output is deterministic as a multiset),
and the caller flags are preserved, in order, as a prefix. -/
theorem appendDefaultMountOptions_perm_det (o1 o2 : List (String × String))
    (flags : List String) (tmp cont : String)
    (h1 : o1.Perm (defaultMountOptions tmp cont))
    (h2 : o2.Perm (defaultMountOptions tmp cont)) :
    (appendDefaultMountOptions o1 flags).Perm (appendDefaultMountOptions o2 flags) ∧
    flags <+: appendDefaultMountOptions o1 flags :=
  ⟨List.Perm.append_left _ (List.Perm.map _ (List.Perm.filter _ (h1.trans h2.symm))),
   ⟨_, rfl⟩⟩

/-- C3 witness: instantiating the amended determinism statement at the
source order, its reverse, and a caller flag that overrides the default
tmp path. -/
theorem appendDefaultMountOptions_perm_det_witness :
    ((defaultMountOptions "/t" "c").Perm (defaultMountOptions "/t" "c") ∧
     ((defaultMountOptions "/t" "c").reverse).Perm (defaultMountOptions "/t" "c")) ∧
    ((appendDefaultMountOptions (defaultMountOptions "/t" "c") ["--tmp-path=/custom"]).Perm
       (appendDefaultMountOptions ((defaultMountOptions "/t" "c").reverse) ["--tmp-path=/custom"]) ∧
     ["--tmp-path=/custom"] <+:
       appendDefaultMountOptions (defaultMountOptions "/t" "c") ["--tmp-path=/custom"]) :=
  ⟨⟨List.Perm.refl _, List.reverse_perm _⟩,
   appendDefaultMountOptions_perm_det _ _ _ _ _ (List.Perm.refl _) (List.reverse_perm _)⟩

lemma procAttr_authEnv_shape (st : AttrSt) (kv : String × String) :
    (procAttr st kv).authEnv = st.authEnv ∨
    ∃ t v, t ∈ identityTags ∧ (procAttr st kv).authEnv = st.authEnv ++ [(t, v)] := by
  rw [procAttr.eq_def]
  by_cases h1 : goLower kv.1 = "containername"
  · rw [if_pos h1]; exact Or.inl rfl
  rw [if_neg h1]
  by_cases h2 : goLower kv.1 = "keyvaulturl"
  · rw [if_pos h2]; exact Or.inl rfl
  rw [if_neg h2]
  by_cases h3 : goLower kv.1 = "keyvaultsecretname"
  · rw [if_pos h3]; exact Or.inl rfl
  rw [if_neg h3]
  by_cases h4 : goLower kv.1 = "keyvaultsecretversion"
  · rw [if_pos h4]; exact Or.inl rfl
  rw [if_neg h4]
  by_cases h5 : goLower kv.1 = "storageaccount"
  · rw [if_pos h5]; exact Or.inl rfl
  rw [if_neg h5]
  by_cases h6 : goLower kv.1 = "storageaccountname"
  · rw [if_pos h6]; exact Or.inl rfl
  rw [if_neg h6]
  by_cases h7 : goLower kv.1 = "secretname"
  · rw [if_pos h7]; exact Or.inl rfl
  rw [if_neg h7]
  by_cases h8 : goLower kv.1 = "secretnamespace"
  · rw [if_pos h8]; exact Or.inl rfl
  rw [if_neg h8]
  by_cases h9 : goLower kv.1 = "getaccountkeyfromsecret"
  · rw [if_pos h9]; exact Or.inl rfl
  rw [if_neg h9]
  by_cases h10 : goLower kv.1 = "azurestorageauthtype"
  · rw [if_pos h10]; exact Or.inr ⟨_, _, by decide, rfl⟩
  rw [if_neg h10]
  by_cases h11 : goLower kv.1 = "azurestorageidentityclientid"
  · rw [if_pos h11]; exact Or.inr ⟨_, _, by decide, rfl⟩
  rw [if_neg h11]
  by_cases h12 : goLower kv.1 = "azurestorageidentityobjectid"
  · rw [if_pos h12]; exact Or.inr ⟨_, _, by decide, rfl⟩
  rw [if_neg h12]
  by_cases h13 : goLower kv.1 = "azurestorageidentityresourceid"
  · rw [if_pos h13]; exact Or.inr ⟨_, _, by decide, rfl⟩
  rw [if_neg h13]
  by_cases h14 : goLower kv.1 = "msiendpoint"
  · rw [if_pos h14]; exact Or.inr ⟨_, _, by decide, rfl⟩
  rw [if_neg h14]
  by_cases h15 : goLower kv.1 = "azurestoragespnclientid"
  · rw [if_pos h15]; exact Or.inr ⟨_, _, by decide, rfl⟩
  rw [if_neg h15]
  by_cases h16 : goLower kv.1 = "azurestoragespntenantid"
  · rw [if_pos h16]; exact Or.inr ⟨_, _, by decide, rfl⟩
  rw [if_neg h16]
  by_cases h17 : goLower kv.1 = "azurestorageaadendpoint"
  · rw [if_pos h17]; exact Or.inr ⟨_, _, by decide, rfl⟩
  rw [if_neg h17]
  exact Or.inl rfl

lemma procAttr_authEnv_tags (st : AttrSt) (kv : String × String) :
    ∀ p ∈ (procAttr st kv).authEnv, p ∈ st.authEnv ∨ p.1 ∈ identityTags := by
  intro p hp
  rcases procAttr_authEnv_shape st kv with h | ⟨t, v, htag, h⟩
  · exact Or.inl (h ▸ hp)
  · rw [h, List.mem_append] at hp
    rcases hp with hp | hp
    · exact Or.inl hp
    · simp only [List.mem_singleton] at hp
      exact Or.inr (hp ▸ htag)

lemma attrState_authEnv_tags (volumeID : String) (attrib : List (String × String)) :
    ∀ p ∈ (attrState volumeID attrib).authEnv, p.1 ∈ identityTags := by
  suffices H : ∀ (l : List (String × String)) (st : AttrSt),
      (∀ p ∈ st.authEnv, p.1 ∈ identityTags) →
      ∀ p ∈ (l.foldl procAttr st).authEnv, p.1 ∈ identityTags by
    exact H attrib _ (by simp [initAttrSt])
  intro l
  induction l with
  | nil => intro st h; simpa using h
  | cons kv tl ih =>
    intro st h p hp
    exact ih (procAttr st kv)
      (fun q hq => (procAttr_authEnv_tags st kv q hq).elim (h q) id) p hp

lemma attrState_no_tag (volumeID : String) (attrib : List (String × String))
    (t : String) (ht : t ∉ identityTags) :
    hasTag t (attrState volumeID attrib).authEnv = false := by
  rw [hasTag, List.any_eq_false]
  intro p hp
  have hid := attrState_authEnv_tags volumeID attrib p hp
  simp only [beq_iff_eq]
  exact fun he => ht (he ▸ hid)

/-- C2 counterexample: with the `fuse` protocol, inline secrets carrying
both an account key and a SAS token produce a successful resolution whose
auth environment contains both entries; inline secrets carrying only the
account name produce a successful resolution with none of the key
materials. -/
theorem getAuthEnv_not_exclusive :
    ((GetAuthEnv d0 envBase "rg#acct#cont#u" "fuse" []
        [("accountkey", "key1"), ("azurestorageaccountsastoken", "tok?sv=1")]).1.err = none ∧
     hasTag "AZURE_STORAGE_SAS_TOKEN"
       (GetAuthEnv d0 envBase "rg#acct#cont#u" "fuse" []
         [("accountkey", "key1"), ("azurestorageaccountsastoken", "tok?sv=1")]).1.authEnv = true ∧
     hasTag "AZURE_STORAGE_ACCESS_KEY"
       (GetAuthEnv d0 envBase "rg#acct#cont#u" "fuse" []
         [("accountkey", "key1"), ("azurestorageaccountsastoken", "tok?sv=1")]).1.authEnv = true) ∧
    ((GetAuthEnv d0 envBase "rg#acct#cont#u" "fuse" [] [("accountname", "acct")]).1.err = none ∧
     (GetAuthEnv d0 envBase "rg#acct#cont#u" "fuse" [] [("accountname", "acct")]).1.authEnv = []) := by
  decide

/-- C2 amended: in the key-vault branch (non-empty key-vault URL, fetch
succeeding with a non-empty value) a successful resolution carries exactly
one of the SAS-token and account-key entries — the SAS entry exactly when
the value contains the `?sv=` marker; the attribute loop itself never
contributes either entry. -/
theorem getAuthEnv_keyvault_exclusive (d : DriverCfg) (env : Env)
    (volumeID protocol : String) (attrib secrets : List (String × String)) (k : String)
    (hp : protocol ≠ "nfs")
    (hkv : (attrState volumeID attrib).keyVaultURL ≠ "")
    (hok : env.kvSecret = .ok k) (hk : k ≠ "") :
    hasTag "AZURE_STORAGE_SAS_TOKEN"
        (GetAuthEnv d env volumeID protocol attrib secrets).1.authEnv = isSASToken k ∧
    hasTag "AZURE_STORAGE_ACCESS_KEY"
        (GetAuthEnv d env volumeID protocol attrib secrets).1.authEnv = ! isSASToken k := by
  have hs : ∀ (a b : String), (a, b) ∈ (attrState volumeID attrib).authEnv →
      ¬ a = "AZURE_STORAGE_SAS_TOKEN" := fun a b hab he =>
    (by decide : ¬ ("AZURE_STORAGE_SAS_TOKEN" ∈ identityTags))
      (he ▸ attrState_authEnv_tags volumeID attrib (a, b) hab)
  have hky : ∀ (a b : String), (a, b) ∈ (attrState volumeID attrib).authEnv →
      ¬ a = "AZURE_STORAGE_ACCESS_KEY" := fun a b hab he =>
    (by decide : ¬ ("AZURE_STORAGE_ACCESS_KEY" ∈ identityTags))
      (he ▸ attrState_authEnv_tags volumeID attrib (a, b) hab)
  simp only [GetAuthEnv, resolveKeyMaterial, if_neg hp, if_pos hkv, hok]
  by_cases hsas : isSASToken k <;>
    simp [hsas, finishAuth, hasTag, List.any_append, hk] <;>
    first | exact hs | exact hky

/-- C2 witness: instantiating the key-vault exclusivity statement with a
raw (non-SAS) key-vault secret. -/
theorem getAuthEnv_keyvault_exclusive_witness :
    ("fuse" ≠ "nfs" ∧
     (attrState "v#a#c#u" [("keyvaulturl", "https://kv")]).keyVaultURL ≠ "" ∧
     ({ envBase with kvSecret := .ok "rawkey" } : Env).kvSecret = .ok "rawkey" ∧
     "rawkey" ≠ "") ∧
    (hasTag "AZURE_STORAGE_SAS_TOKEN"
        (GetAuthEnv d0 { envBase with kvSecret := .ok "rawkey" } "v#a#c#u" "fuse"
          [("keyvaulturl", "https://kv")] []).1.authEnv = isSASToken "rawkey" ∧
     hasTag "AZURE_STORAGE_ACCESS_KEY"
        (GetAuthEnv d0 { envBase with kvSecret := .ok "rawkey" } "v#a#c#u" "fuse"
          [("keyvaulturl", "https://kv")] []).1.authEnv = ! isSASToken "rawkey") :=
  ⟨⟨by decide, by decide, rfl, by decide⟩,
   getAuthEnv_keyvault_exclusive d0 _ "v#a#c#u" "fuse" [("keyvaulturl", "https://kv")] []
     "rawkey" (by decide) (by decide) rfl (by decide)⟩

lemma finishAuth_containerName (vid : String) (st : AttrSt)
    (r : (KeyOut ⊕ String) × List Ev) :
    (finishAuth vid st r).1.containerName = st.containerName := by
  rcases r with ⟨ko | e, evs⟩ <;> simp [finishAuth]

lemma finishAuth_empty_container (vid : String) (st : AttrSt)
    (r : (KeyOut ⊕ String) × List Ev) (hc : st.containerName = "") :
    ((finishAuth vid st r).1.err).isSome := by
  rcases r with ⟨ko | e, evs⟩ <;> simp [finishAuth, hc]

/-- C6 counterexample: with the `nfs` protocol the function returns before
the missing-container check, so a malformed volume id together with empty
attributes yields a successful result whose container name is empty —
no error is raised. -/
theorem getAuthEnv_nfs_missing_container :
    (GetAuthEnv d0 envBase "badid" "nfs" [] []).1.containerName = "" ∧
    (GetAuthEnv d0 envBase "badid" "nfs" [] []).1.err = none := by decide

/-- C6 amended: for every non-`nfs` protocol an empty resolved container
name forces an error; and (concretely) a malformed volume id alone is not
an error when the attributes supply the container name. -/
theorem getAuthEnv_missing_container_err (d : DriverCfg) (env : Env)
    (volumeID protocol : String) (attrib secrets : List (String × String))
    (hp : protocol ≠ "nfs")
    (hc : (GetAuthEnv d env volumeID protocol attrib secrets).1.containerName = "") :
    ((GetAuthEnv d env volumeID protocol attrib secrets).1.err).isSome ∧
    (GetAuthEnv d0 envBase "badid" "fuse" [("containername", "cont9")]
      [("accountname", "acct9")]).1.err = none := by
  refine ⟨?_, by decide⟩
  simp only [GetAuthEnv, if_neg hp] at hc ⊢
  rw [finishAuth_containerName] at hc
  exact finishAuth_empty_container _ _ _ hc

/-- C6 witness: a request with no container name anywhere under the fuse
protocol indeed errors. -/
theorem getAuthEnv_missing_container_err_witness :
    ("fuse" ≠ "nfs" ∧
     (GetAuthEnv d0 envBase "badid" "fuse" [] [("accountname", "x")]).1.containerName = "") ∧
    (((GetAuthEnv d0 envBase "badid" "fuse" [] [("accountname", "x")]).1.err).isSome ∧
     (GetAuthEnv d0 envBase "badid" "fuse" [("containername", "cont9")]
       [("accountname", "acct9")]).1.err = none) :=
  ⟨⟨by decide, by decide⟩,
   getAuthEnv_missing_container_err d0 envBase "badid" "fuse" [] [("accountname", "x")]
     (by decide) (by decide)⟩

/-- C8: when the attribute loop produced a non-empty key-vault URL the
key-vault branch short-circuits all other sources: the result is
independent of the inline request secrets and of the secret-store and
cloud oracles, neither capability is invoked, and on a successful fetch
the auth environment extends the attribute-loop entries with exactly the
fetched value — as a SAS token when it matches `?sv=`, as a raw account
key otherwise. -/
theorem getAuthEnv_keyvault_shortcircuit (d : DriverCfg) (env : Env)
    (volumeID protocol : String) (attrib secrets secrets' : List (String × String))
    (s1 : Except String (String × String)) (c1 : Except String String) (k : String)
    (hp : protocol ≠ "nfs")
    (hkv : (attrState volumeID attrib).keyVaultURL ≠ "") :
    GetAuthEnv d env volumeID protocol attrib secrets =
      GetAuthEnv d { env with storeSecret := s1, cloudKey := c1 }
        volumeID protocol attrib secrets' ∧
    Ev.secretGet ∉ (GetAuthEnv d env volumeID protocol attrib secrets).2 ∧
    Ev.cloudGetKey ∉ (GetAuthEnv d env volumeID protocol attrib secrets).2 ∧
    (env.kvSecret = .ok k →
      (GetAuthEnv d env volumeID protocol attrib secrets).1.authEnv =
        (attrState volumeID attrib).authEnv ++
          (if isSASToken k then [("AZURE_STORAGE_SAS_TOKEN", k)]
           else if k ≠ "" then [("AZURE_STORAGE_ACCESS_KEY", k)] else [])) := by
  rcases hks : env.kvSecret with e | key
  · simp only [GetAuthEnv, resolveKeyMaterial, if_neg hp, if_pos hkv, hks]
    refine ⟨by trivial, ?_, ?_, ?_⟩ <;> simp [finishAuth, hks]
  · simp only [GetAuthEnv, resolveKeyMaterial, if_neg hp, if_pos hkv, hks]
    refine ⟨by trivial, ?_, ?_, ?_⟩
    · by_cases hsas : isSASToken key <;> simp [finishAuth, hsas]
    · by_cases hsas : isSASToken key <;> simp [finishAuth, hsas]
    · intro hok
      have hkk : key = k := Except.ok.inj hok
      subst hkk
      by_cases hsas : isSASToken key
      · by_cases hk0 : key = ""
        · exact absurd (hk0 ▸ hsas) (by decide)
        · simp [finishAuth, hsas, hk0]
      · by_cases hk0 : key = "" <;>
          simp [finishAuth, hsas, hk0, show isSASToken "" = false from by decide]

/-- C8 witness: instantiating the short-circuit statement with a SAS-shaped
key-vault secret, non-trivial inline secrets and altered store/cloud
oracles. -/
theorem getAuthEnv_keyvault_shortcircuit_witness :
    ("fuse" ≠ "nfs" ∧
     (attrState "v#a#c#u" [("keyvaulturl", "https://kv")]).keyVaultURL ≠ "") ∧
    (GetAuthEnv d0 { envBase with kvSecret := .ok "x?sv=1" } "v#a#c#u" "fuse"
        [("keyvaulturl", "https://kv")] [("accountkey", "zzz")] =
      GetAuthEnv d0 { { envBase with kvSecret := .ok "x?sv=1" } with
          storeSecret := .ok ("other", "okey"), cloudKey := .ok "ckey" }
        "v#a#c#u" "fuse" [("keyvaulturl", "https://kv")] [] ∧
     Ev.secretGet ∉ (GetAuthEnv d0 { envBase with kvSecret := .ok "x?sv=1" } "v#a#c#u" "fuse"
        [("keyvaulturl", "https://kv")] [("accountkey", "zzz")]).2 ∧
     Ev.cloudGetKey ∉ (GetAuthEnv d0 { envBase with kvSecret := .ok "x?sv=1" } "v#a#c#u" "fuse"
        [("keyvaulturl", "https://kv")] [("accountkey", "zzz")]).2 ∧
     (({ envBase with kvSecret := .ok "x?sv=1" } : Env).kvSecret = .ok "x?sv=1" →
       (GetAuthEnv d0 { envBase with kvSecret := .ok "x?sv=1" } "v#a#c#u" "fuse"
          [("keyvaulturl", "https://kv")] [("accountkey", "zzz")]).1.authEnv =
         (attrState "v#a#c#u" [("keyvaulturl", "https://kv")]).authEnv ++
           (if isSASToken "x?sv=1" then [("AZURE_STORAGE_SAS_TOKEN", "x?sv=1")]
            else if "x?sv=1" ≠ "" then [("AZURE_STORAGE_ACCESS_KEY", "x?sv=1")] else []))) :=
  ⟨⟨by decide, by decide⟩,
   getAuthEnv_keyvault_shortcircuit d0 { envBase with kvSecret := .ok "x?sv=1" }
     "v#a#c#u" "fuse" [("keyvaulturl", "https://kv")] [("accountkey", "zzz")] []
     (.ok ("other", "okey")) (.ok "ckey") "x?sv=1" (by decide) (by decide)⟩

/-- C1 counterexample: a staging run whose credential resolution fails
(named secret and cloud key both unavailable) returns the error with the
freshly created target directory left in place — no removal happens on
this terminal failure path. -/
theorem nodeStage_credfail_leaves_target :
    (NodeStageVolume d0 envBase reqBase).1.isSome ∧
    Ev.makeDir ∈ (NodeStageVolume d0 envBase reqBase).2 ∧
    Ev.removeTarget ∉ (NodeStageVolume d0 envBase reqBase).2 := by decide

/-- C1 amended: the target directory is removed before returning only on
the blobfuse executor failure path, and there only when the post-failure
probe reports the target is not a mount point (the credential-resolution
failure path, by the counterexample, leaves the directory). -/
theorem nodeStage_mountfail_removes_target (d : DriverCfg) (env : Env) (req : StageReq)
    (ar : AuthResult) (evs2 : List Ev) (out e : String)
    (hv : req.volumeID ≠ "") (ht : req.targetPath ≠ "") (hcap : req.hasCapability)
    (hl : ¬ env.lockHeld)
    (hens : ensureMountPoint env = ((false, none), [Ev.makeDir]))
    (hga : GetAuthEnv d env req.volumeID (stageAttrState req.attrib).protocol
             req.attrib req.secrets = (ar, evs2))
    (herr : ar.err = none)
    (hproto : (stageAttrState req.attrib).protocol ≠ "nfs")
    (hmock : ¬ d.enableBlobMockMount)
    (hexec : env.execMountRes = (out, some e))
    (hpost : env.post1 = (true, none)) :
    (NodeStageVolume d env req).1.isSome ∧
    Ev.makeDir ∈ (NodeStageVolume d env req).2 ∧
    Ev.removeTarget ∈ (NodeStageVolume d env req).2 := by
  simp [NodeStageVolume, hens, hga, hexec, hpost, hv, ht, hcap, hl, herr, hproto, hmock]

/-- C1 witness: a concrete executor-failure run that removes the created
target directory before surfacing the error. -/
theorem nodeStage_mountfail_removes_target_witness :
    (reqKV.volumeID ≠ "" ∧ reqKV.targetPath ≠ "" ∧ reqKV.hasCapability ∧
     ¬ envExecFail.lockHeld ∧
     ensureMountPoint envExecFail = ((false, none), [Ev.makeDir]) ∧
     GetAuthEnv d0 envExecFail reqKV.volumeID (stageAttrState reqKV.attrib).protocol
       reqKV.attrib reqKV.secrets =
       ({ accountName := "acct1", containerName := "cont1",
          authEnv := [("AZURE_STORAGE_ACCESS_KEY", "KEYMAT")], err := none },
        [Ev.kvFetch]) ∧
     (stageAttrState reqKV.attrib).protocol ≠ "nfs" ∧
     ¬ d0.enableBlobMockMount ∧
     envExecFail.execMountRes = ("out", some "exit 1") ∧
     envExecFail.post1 = (true, none)) ∧
    ((NodeStageVolume d0 envExecFail reqKV).1.isSome ∧
     Ev.makeDir ∈ (NodeStageVolume d0 envExecFail reqKV).2 ∧
     Ev.removeTarget ∈ (NodeStageVolume d0 envExecFail reqKV).2) :=
  ⟨⟨by decide, by decide, by decide, by decide, by decide, by decide,
    by decide, by decide, by decide, by decide⟩,
   nodeStage_mountfail_removes_target d0 envExecFail reqKV
     { accountName := "acct1", containerName := "cont1",
       authEnv := [("AZURE_STORAGE_ACCESS_KEY", "KEYMAT")], err := none }
     [Ev.kvFetch] "out" "exit 1"
     (by decide) (by decide) (by decide) (by decide) (by decide) (by decide)
     (by decide) (by decide) (by decide) (by decide) (by decide)⟩

/-- C5: when the target is reported as a mount point but its liveness
check fails, `ensureMountPoint` unmounts it and then — despite its own
"remount later" comment — returns the `ReadDir` error, so the staging
call fails with an internal error without ever reaching credential
resolution or the mount executor. -/
theorem nodeStage_broken_link_errors_early :
    (NodeStageVolume d0 envBrokenLink reqBase).1.isSome ∧
    Ev.unmountTarget ∈ (NodeStageVolume d0 envBrokenLink reqBase).2 ∧
    Ev.execMount ∉ (NodeStageVolume d0 envBrokenLink reqBase).2 ∧
    Ev.kvFetch ∉ (NodeStageVolume d0 envBrokenLink reqBase).2 ∧
    Ev.secretGet ∉ (NodeStageVolume d0 envBrokenLink reqBase).2 ∧
    Ev.cloudGetKey ∉ (NodeStageVolume d0 envBrokenLink reqBase).2 ∧
    (ensureMountPoint envBrokenLink).1 = (false, some (.other "input-output error")) := by
  decide

/-- C9: a staging request whose target is already a healthy mount point
(the probe reports a mount point and the liveness check passes) returns
success immediately: no directory creation, no credential resolution, no
mount-executor invocation — the event log is empty. -/
theorem nodeStage_idempotent_noop (d : DriverCfg) (env : Env) (req : StageReq)
    (hv : req.volumeID ≠ "") (ht : req.targetPath ≠ "") (hcap : req.hasCapability)
    (hl : ¬ env.lockHeld) (hstat : env.stat1 = (false, none))
    (hrd : env.readDirErr = none) :
    NodeStageVolume d env req = (none, []) := by
  have hemp : ensureMountPoint env = ((true, none), []) := by
    simp [ensureMountPoint, ensureAfterStat, hstat, hrd]
  simp [NodeStageVolume, hemp, hv, ht, hcap, hl]

/-- C9 witness: a concrete retried request over a healthy mount point is a
no-op success. -/
theorem nodeStage_idempotent_noop_witness :
    (reqBase.volumeID ≠ "" ∧ reqBase.targetPath ≠ "" ∧ reqBase.hasCapability ∧
     ¬ envMounted.lockHeld ∧ envMounted.stat1 = (false, none) ∧
     envMounted.readDirErr = none) ∧
    NodeStageVolume d0 envMounted reqBase = (none, []) :=
  ⟨⟨by decide, by decide, by decide, by decide, by decide, by decide⟩,
   nodeStage_idempotent_noop d0 envMounted reqBase
     (by decide) (by decide) (by decide) (by decide) (by decide) (by decide)⟩

end Blob

